import Mathlib

/-!
Verification of waypaste (src/waypaste/main.py) against its specification.

The Python source is shallowly embedded: the event handlers of
`WaylandContext` become a step function on an explicit context state, the
serving loop of `MainThread.run` becomes a recursive function over a list of
incoming events, and the startup sequencing of `__init__` and `main` becomes
trace-producing functions.  Bytes are modelled as `Nat`, file contents as
`List Nat`.  External outcomes the program merely reacts to (whether the
transport-level connect succeeds, whether a raw `write(2)` call transfers
bytes or fails) are inputs of the embedded functions.
-/

namespace Waypaste

/-! ## WaylandContext handler state (src/waypaste/main.py lines 75-111)

`self._send_args` is a single attribute that either does not exist yet
(`Option.none`), holds a `(mime_type, fd)` tuple written by `_send_handler`,
or holds a `SelectionChanged` exception written by `_cancelled_handler`.
`self._cancelled_count` is an attribute written by `_send_handler`
(set to 0) and read nowhere in the file; it is `none` before the first
send event. -/

/-- A value held in the `_send_args` slot: either a pending content request
`(mime_type, fd)` or the `SelectionChanged` exception instance. -/
inductive SlotValue
  | request (mime_type : String) (fd : Nat)
  | selectionChanged
  deriving DecidableEq, Repr

/-- The mutable attributes of `WaylandContext` touched by the two data-source
event handlers.  `send_args = none` models the attribute not existing
(`hasattr` false); `cancelled_count = none` models `_cancelled_count` never
having been assigned. -/
structure CtxState where
  send_args : Option SlotValue
  cancelled_count : Option Nat
  deriving DecidableEq, Repr

/-- Context state right after a successful `create_data_source`, before any
`send` or `cancelled` event has been dispatched: neither attribute exists. -/
def initCtx : CtxState := { send_args := none, cancelled_count := none }

/-- An asynchronous event delivered on the data source: a content request
(`send` event, carrying a mime type and a destination fd) or a revocation
(`cancelled` event). -/
inductive WlEvent
  | send (mime_type : String) (fd : Nat)
  | cancelled
  deriving DecidableEq, Repr

/-- `WaylandContext._send_handler` (lines 75-79): sets `_cancelled_count = 0`
and stores the `(mime_type, fd)` pair in `_send_args`, unconditionally
overwriting whatever the slot held. -/
def send_handler (s : CtxState) (mime_type : String) (fd : Nat) : CtxState :=
  { s with cancelled_count := some 0,
           send_args := some (SlotValue.request mime_type fd) }

/-- `WaylandContext._cancelled_handler` (lines 81-83): stores a
`SelectionChanged` exception in `_send_args`, unconditionally overwriting
whatever the slot held.  It neither reads nor writes `_cancelled_count`. -/
def cancelled_handler (s : CtxState) : CtxState :=
  { s with send_args := some SlotValue.selectionChanged }

/-- Dispatch one event to its registered handler. -/
def handleEvent (s : CtxState) : WlEvent → CtxState
  | WlEvent.send m f => send_handler s m f
  | WlEvent.cancelled => cancelled_handler s

/-- Dispatch a sequence of events in order. -/
def runEvents (s : CtxState) (es : List WlEvent) : CtxState :=
  es.foldl handleEvent s

/-- The observable result of `WaylandContext.wait_for_paste` (lines 99-111)
on a given context state: it blocks while `_send_args` does not exist,
raises `SelectionChanged` if the slot holds the exception, and otherwise
returns the `(mime_type, fd)` pair (clearing the slot). -/
inductive WaitOutcome
  | blocks
  | raisesSelectionChanged
  | returns (mime_type : String) (fd : Nat)
  deriving DecidableEq, Repr

/-- `WaylandContext.wait_for_paste`, as a function of the context state at
the moment the consumer inspects the slot. -/
def wait_for_paste (s : CtxState) : WaitOutcome :=
  match s.send_args with
  | none => WaitOutcome.blocks
  | some SlotValue.selectionChanged => WaitOutcome.raisesSelectionChanged
  | some (SlotValue.request m f) => WaitOutcome.returns m f

/-! ## Source buffer and the serving loop (`MainThread.run`, lines 123-141)

`main` opens the source file once; if it is seekable the file object itself
is passed to the thread (`paste_data = None`), otherwise its whole content
is read once at startup and that buffer is passed.  `MainThread.run`
re-derives the bytes to send on every request: seekable sources are rewound
with `seek(0)` and re-read with `read()` (which reads from the current
position to end-of-file), non-seekable sources reuse the captured buffer. -/

/-- The data source handed to `MainThread`: a seekable file (content plus
current read position) or the buffer captured at startup from a
non-seekable stream. -/
inductive SourceBuffer
  | replayable (content : List Nat) (pos : Nat)
  | materialized (buf : List Nat)
  deriving DecidableEq, Repr

/-- The full byte content of a source, independent of read position. -/
def fullContent : SourceBuffer → List Nat
  | SourceBuffer.replayable content _ => content
  | SourceBuffer.materialized buf => buf

/-- Lines 129-133 of `MainThread.run`: compute the bytes for one request.
Seekable: `seek(0)` then `read()` (drop the position, which is now 0, and
leave the position at end-of-file).  Non-seekable: `self.paste_data`, the
startup buffer, with the source unchanged. -/
def serveBytes : SourceBuffer → List Nat × SourceBuffer
  | SourceBuffer.replayable content _ =>
      (content.drop 0, SourceBuffer.replayable content content.length)
  | SourceBuffer.materialized buf => (buf, SourceBuffer.materialized buf)

/-- One iteration's input to the serving loop, as seen through
`wait_for_paste`: a content request whose servicing either succeeds or hits
a hard I/O error on the destination fd (`ioFail`), or a revocation
(`wait_for_paste` raising `SelectionChanged`). -/
inductive LoopInput
  | req (ioFail : Bool)
  | cancel
  deriving DecidableEq, Repr

/-- How the `while True` loop in `MainThread.run` ends. -/
inductive LoopExit
  | stillWaiting
  | cleanExit
  | ioCrash
  deriving DecidableEq, Repr

/-- `MainThread.run` (lines 123-141) over a list of loop inputs.  Returns
the contents successfully written out, in order, and how the loop ended.
The `try`/`except` catches only `WaylandContext.SelectionChanged` (clean
`break`); an `OSError` raised while writing to the destination fd is not
caught and propagates out of `run`, killing the thread. -/
def runServeLoop (src : SourceBuffer) : List LoopInput → List (List Nat) × LoopExit
  | [] => ([], LoopExit.stillWaiting)
  | LoopInput.cancel :: _ => ([], LoopExit.cleanExit)
  | LoopInput.req true :: _ => ([], LoopExit.ioCrash)
  | LoopInput.req false :: rest =>
      let d := serveBytes src
      let r := runServeLoop d.2 rest
      (d.1 :: r.1, r.2)

/-! ## `WaylandContext.create_data_source` (lines 85-97) as an action trace -/

/-- The externally visible actions `create_data_source` performs, in
order. -/
inductive ClaimAction
  | createSource
  | registerSendHandler
  | registerCancelledHandler
  | offerType (mime_type : String)
  | getSerial
  | setSelection
  | finalRoundtrip
  deriving DecidableEq, Repr

/-- Whether an action is an `offer()` advertisement. -/
def isOffer : ClaimAction → Bool
  | ClaimAction.offerType _ => true
  | _ => false

/-- `WaylandContext.create_data_source(mime_types)` (lines 85-97): creates
the data source, installs the `send` handler then the `cancelled` handler,
calls `offer(mime_type)` for each mime type in list order, obtains a fresh
serial, submits `set_selection`, and forces a round-trip. -/
def create_data_source (mime_types : List String) : List ClaimAction :=
  [ClaimAction.createSource, ClaimAction.registerSendHandler,
      ClaimAction.registerCancelledHandler] ++
    mime_types.map ClaimAction.offerType ++
    [ClaimAction.getSerial, ClaimAction.setSelection, ClaimAction.finalRoundtrip]

/-! ## `WaylandContext.__init__` (lines 40-61) -/

/-- The protocol-facing steps `__init__` performs, in order. -/
inductive InitStep
  | connectAttempt
  | getRegistry
  | registryRoundtrip
  | getDataDevice
  deriving DecidableEq, Repr

/-- How `__init__` can fail: the distinguished
`Exception("WAYLAND_DISPLAY is not set")` raised when the connect attempt
fails with no (or an empty) `WAYLAND_DISPLAY` in the environment; the
original connect exception re-raised (`raise e from e`) when a display name
was configured; or the missing data-device-manager error after discovery. -/
inductive InitError
  | waylandDisplayNotSet
  | connectFailed
  | noDataDeviceManager
  deriving DecidableEq, Repr

/-- `WaylandContext.__init__` (lines 40-61).  `connectOk` is the outcome of
the transport-level `Display().connect()` attempt (external to this
program); `waylandDisplay` is `environ.get('WAYLAND_DISPLAY')`;
`hasDataDeviceManager` is whether registry discovery found a
`wl_data_device_manager` global.  Returns the steps performed and the error
raised, if any.  If connect fails, the environment check selects between the
distinguished configuration error and re-raising the connect error, and no
registry interaction happens. -/
def waylandInit (connectOk : Bool) (waylandDisplay : Option String)
    (hasDataDeviceManager : Bool) : List InitStep × Option InitError :=
  if connectOk then
    if hasDataDeviceManager then
      ([InitStep.connectAttempt, InitStep.getRegistry,
        InitStep.registryRoundtrip, InitStep.getDataDevice], none)
    else
      ([InitStep.connectAttempt, InitStep.getRegistry,
        InitStep.registryRoundtrip], some InitError.noDataDeviceManager)
  else
    ([InitStep.connectAttempt],
      match waylandDisplay with
      | none => some InitError.waylandDisplayNotSet
      | some d =>
          if d = "" then some InitError.waylandDisplayNotSet
          else some InitError.connectFailed)

/-! ## `main` startup sequencing (lines 143-196) -/

/-- The major steps of `main`, in program order. -/
inductive MainStep
  | connectDisplay
  | registryDiscovery
  | bindDataDevice
  | claimSelection
  | openSource
  | forkBackground
  | serveContent
  deriving DecidableEq, Repr

/-- The failure `main` can hit once connected: opening an unreadable input
source raises an uncaught `OSError`. -/
inductive MainFailure
  | sourceUnreadable
  deriving DecidableEq, Repr

/-- `main` (lines 161-193), given whether the input source is readable and
whether `--foreground` was passed: constructs `WaylandContext` (connect,
registry discovery, device binding), claims the selection via
`create_data_source`, and only then opens the input source; if the open
fails the uncaught exception ends the process there.  Otherwise it forks
(unless foreground) and starts the serving thread. -/
def mainTrace (sourceReadable foreground : Bool) :
    List MainStep × Option MainFailure :=
  let protocolPart := [MainStep.connectDisplay, MainStep.registryDiscovery,
    MainStep.bindDataDevice, MainStep.claimSelection]
  if sourceReadable then
    (protocolPart ++ [MainStep.openSource] ++
        (if foreground then [] else [MainStep.forkBackground]) ++
        [MainStep.serveContent],
      none)
  else
    (protocolPart, some MainFailure.sourceUnreadable)

/-! ## Destination descriptor flags and the blocking write (lines 135-139)

Line 138 is `fcntl.fcntl(out, fcntl.F_SETFL, fcntl.fcntl(out, fcntl.F_GETFL)
& ~O_NONBLOCK)`.  On Linux `os.O_NONBLOCK = 2048 = 2 ^ 11`.  Python's `&`
with the complement of a non-negative int over a non-negative int is exactly
the bitwise difference of naturals (`Nat.ldiff`). -/

/-- `os.O_NONBLOCK` on Linux. -/
def O_NONBLOCK : Nat := 2048

/-- The new status flags computed on line 138: `getfl & ~O_NONBLOCK`. -/
def clearNonblock (flags : Nat) : Nat := Nat.ldiff flags O_NONBLOCK

/-- Outcome of one raw `write(2)` call on the (now blocking) destination:
the kernel transfers `n` bytes, or the call fails with a hard I/O error.
A blocking descriptor never returns "would block"; it blocks instead,
modelled by the outcome schedule running out. -/
inductive RawWrite
  | ok (n : Nat)
  | err
  deriving DecidableEq, Repr

/-- Final state of `out.write(paste_data)`: every byte written, a raised
hard I/O error, or still blocked inside a raw write. -/
inductive WriteStatus
  | complete
  | hardError
  | stillBlocked
  deriving DecidableEq, Repr

/-- CPython's buffered `out.write` on a blocking descriptor (line 139):
raw writes are repeated until every byte has been transferred or a raw
write fails hard; a short raw write is never surfaced as success.  `sched`
is the externally determined outcome of each successive raw write.  Returns
the total bytes transferred and the final status. -/
def writeRetry : List RawWrite → List Nat → Nat → Nat × WriteStatus
  | _, [], written => (written, WriteStatus.complete)
  | [], _ :: _, written => (written, WriteStatus.stillBlocked)
  | RawWrite.err :: _, _ :: _, written => (written, WriteStatus.hardError)
  | RawWrite.ok n :: sched, b :: rest, written =>
      writeRetry sched ((b :: rest).drop n) (written + min n (b :: rest).length)

/-- Lines 135-139 of `MainThread.run`, serving one request: the destination
fd's status flags are rewritten to `getfl & ~O_NONBLOCK` first, and the
content is then written under those flags through the retrying buffered
write.  Returns the flags in effect during the write together with the
write result. -/
def serveRequest (flags : Nat) (data : List Nat) (sched : List RawWrite) :
    Nat × (Nat × WriteStatus) :=
  (clearNonblock flags, writeRetry sched data 0)

/-! ## Helper lemmas -/

/-- Bit `i` of the flags computed on line 138, in terms of the old flags. -/
theorem clearNonblock_testBit (flags i : Nat) :
    (clearNonblock flags).testBit i =
      (flags.testBit i && !(Nat.testBit O_NONBLOCK i)) :=
  Nat.testBit_ldiff flags O_NONBLOCK i

/-- `O_NONBLOCK` has exactly bit 11 set. -/
theorem testBit_O_NONBLOCK (i : Nat) :
    Nat.testBit O_NONBLOCK i = decide (i = 11) := by
  have h : O_NONBLOCK = 2 ^ 11 := by norm_num [O_NONBLOCK]
  rw [h]
  rcases eq_or_ne i 11 with rfl | hne
  · decide
  · simp [Nat.testBit_two_pow_of_ne (Ne.symm hne), hne]

/-- If the retrying write reports completion, it transferred exactly the
remaining length on top of what was already written. -/
theorem writeRetry_complete_total (sched : List RawWrite) :
    ∀ (data : List Nat) (written : Nat),
      (writeRetry sched data written).2 = WriteStatus.complete →
      (writeRetry sched data written).1 = written + data.length := by
  induction sched with
  | nil =>
    intro data written h
    cases data with
    | nil => simp [writeRetry]
    | cons b rest => simp [writeRetry] at h
  | cons r s ih =>
    intro data written h
    cases data with
    | nil => simp [writeRetry]
    | cons b rest =>
      cases r with
      | err => simp [writeRetry] at h
      | ok n =>
        rw [writeRetry] at h ⊢
        rw [ih ((b :: rest).drop n) (written + min n (b :: rest).length) h]
        simp [List.length_drop]
        omega

end Waypaste

namespace Waypaste

/-- **C1.** The claim states that a single revocation event only moves the
classifier to `PendingConfirm` and does not by itself make
`wait_for_paste` fail; two revocations with no intervening request are
required.  Evaluating the embedded code at the failing input: starting
from the freshly claimed state, ONE `cancelled` event already makes
`wait_for_paste` raise `SelectionChanged`.  (`_cancelled_handler` signals
revocation unconditionally; the `_cancelled_count` counter that
`_send_handler` resets is never incremented or read anywhere.) -/
theorem single_cancelled_already_raises :
    wait_for_paste (runEvents initCtx [WlEvent.cancelled]) =
      WaitOutcome.raisesSelectionChanged := by
  rfl

/-- **C2.** A revocation event followed (within the offer's lifetime) by a
content-request event leaves the slot holding the pending request, never
the revocation: from any context state, dispatching `cancelled` and then
`send m f` makes the consumer receive the pending request `(m, f)` rather
than the revocation error, and the recorded state is not revoked. -/
theorem cancelled_then_send_is_active (s : CtxState) (m : String) (f : Nat) :
    wait_for_paste (runEvents s [WlEvent.cancelled, WlEvent.send m f]) =
        WaitOutcome.returns m f ∧
      (runEvents s [WlEvent.cancelled, WlEvent.send m f]).send_args ≠
        some SlotValue.selectionChanged := by
  constructor
  · rfl
  · intro h
    simp [runEvents, handleEvent, send_handler, cancelled_handler] at h

/-- **C5.** Every request served without a hard I/O error writes the full
byte content of the source: from any source state, the first request
observes the full content, and a second successive request observes the
full content again — for a replayable source because it is rewound to the
start and re-read fresh, for a materialized source because the single
captured buffer is written unchanged every time. -/
theorem serve_writes_full_content (src : SourceBuffer) :
    (serveBytes src).1 = fullContent src ∧
      (serveBytes (serveBytes src).2).1 = fullContent src := by
  cases src <;> simp [serveBytes, fullContent]

/-- **C4 (counterexample).** The claim states that a per-request hard I/O
error is recovered locally and the serving loop continues to serve
subsequent requests.  Concrete run refuting it: a request that hits a hard
I/O error followed by a healthy request — the loop dies on the first
(`OSError` is not caught by the `except WaylandContext.SelectionChanged`
clause) and the second request is never served. -/
theorem io_error_kills_loop_counterexample :
    runServeLoop (SourceBuffer.materialized [104, 105])
        [LoopInput.req true, LoopInput.req false] =
      ([], LoopExit.ioCrash) := by
  rfl

/-- **C4 (amended).** A hard I/O error while servicing a request is not
caught: it propagates out of `MainThread.run` and terminates the serving
loop immediately, whatever requests follow, and nothing further is served;
only the revocation exception ends the loop cleanly. -/
theorem io_error_terminates_serving_loop (src : SourceBuffer)
    (rest : List LoopInput) :
    runServeLoop src (LoopInput.req true :: rest) = ([], LoopExit.ioCrash) ∧
      runServeLoop src (LoopInput.cancel :: rest) = ([], LoopExit.cleanExit) := by
  exact ⟨rfl, rfl⟩

/-- **C6.** For every non-empty content-type list: the `offer()` actions of
`create_data_source` are exactly the given identifiers, each advertised
once, in list order (the trace filtered to offers equals the list), and
both event-handler registrations occur strictly before every
advertisement. -/
theorem create_data_source_offer_order (ts : List String) (h : ts ≠ []) :
    (create_data_source ts).filter isOffer = ts.map ClaimAction.offerType ∧
      ∃ pre post,
        create_data_source ts = pre ++ ts.map ClaimAction.offerType ++ post ∧
          ClaimAction.registerSendHandler ∈ pre ∧
          ClaimAction.registerCancelledHandler ∈ pre ∧
          (∀ a ∈ pre, isOffer a = false) ∧ (∀ a ∈ post, isOffer a = false) := by
  refine ⟨?_, [ClaimAction.createSource, ClaimAction.registerSendHandler,
      ClaimAction.registerCancelledHandler],
    [ClaimAction.getSerial, ClaimAction.setSelection, ClaimAction.finalRoundtrip],
    rfl, by simp, by simp, by simp [isOffer], by simp [isOffer]⟩
  simp [create_data_source, List.filter_append, isOffer]

/-- Witness for C6 at the concrete list `["text/plain"]`. -/
theorem create_data_source_offer_order_witness :
    (["text/plain"] : List String) ≠ [] ∧
      ((create_data_source ["text/plain"]).filter isOffer =
          List.map ClaimAction.offerType ["text/plain"] ∧
        ∃ pre post,
          create_data_source ["text/plain"] =
              pre ++ List.map ClaimAction.offerType ["text/plain"] ++ post ∧
            ClaimAction.registerSendHandler ∈ pre ∧
            ClaimAction.registerCancelledHandler ∈ pre ∧
            (∀ a ∈ pre, isOffer a = false) ∧ (∀ a ∈ post, isOffer a = false)) :=
  ⟨by simp, create_data_source_offer_order ["text/plain"] (by simp)⟩

/-- **C3 (counterexample).** The claim states that with an unreadable input
source the program fails before any protocol interaction (no connection,
no registry discovery, no clipboard claim).  At the concrete input
"source unreadable, background mode", the run fails with the source error,
yet the connection, the registry discovery and the clipboard claim have
all already been performed. -/
theorem unreadable_source_after_protocol_counterexample :
    (mainTrace false false).2 = some MainFailure.sourceUnreadable ∧
      MainStep.connectDisplay ∈ (mainTrace false false).1 ∧
      MainStep.registryDiscovery ∈ (mainTrace false false).1 ∧
      MainStep.claimSelection ∈ (mainTrace false false).1 := by
  refine ⟨rfl, ?_, ?_, ?_⟩ <;> simp [mainTrace]

/-- **C3 (amended).** An unreadable input source makes `main` fail with the
startup I/O error, but only after the compositor connection, registry
discovery, device binding and clipboard claim have completed; the failure
does occur before forking into the background and before any content is
served. -/
theorem unreadable_source_fails_after_claim (foreground : Bool) :
    mainTrace false foreground =
        ([MainStep.connectDisplay, MainStep.registryDiscovery,
          MainStep.bindDataDevice, MainStep.claimSelection],
          some MainFailure.sourceUnreadable) ∧
      MainStep.forkBackground ∉ (mainTrace false foreground).1 ∧
      MainStep.serveContent ∉ (mainTrace false foreground).1 := by
  refine ⟨rfl, ?_, ?_⟩ <;> simp [mainTrace]

/-- **C9.** The `_send_args` slot is last-writer-wins: from any state — in
particular one holding an unread pending request — a `cancelled` event
unconditionally overwrites the slot with the revocation, and from any
state — in particular one holding an unread revocation — a `send` event
unconditionally overwrites the slot with the new request; the previous
unread value is discarded. -/
theorem send_args_last_writer_wins (s : CtxState) (m : String) (f : Nat) :
    (cancelled_handler s).send_args = some SlotValue.selectionChanged ∧
      (send_handler s m f).send_args = some (SlotValue.request m f) := by
  exact ⟨rfl, rfl⟩

/-- **C8.** If the transport-level connect attempt fails and no compositor
endpoint is configured (`WAYLAND_DISPLAY` unset or empty), `__init__`
raises the distinguished `WAYLAND_DISPLAY is not set` configuration error —
different from the re-raised connect error produced when an endpoint name
is configured but unreachable — and no registry interaction has been
performed. -/
theorem no_display_distinguished_error (env : Option String) (ddm : Bool)
    (h : env = none ∨ env = some "") :
    (waylandInit false env ddm).2 = some InitError.waylandDisplayNotSet ∧
      (waylandInit false (some "wayland-1") ddm).2 =
        some InitError.connectFailed ∧
      InitError.waylandDisplayNotSet ≠ InitError.connectFailed ∧
      InitStep.getRegistry ∉ (waylandInit false env ddm).1 ∧
      InitStep.registryRoundtrip ∉ (waylandInit false env ddm).1 := by
  rcases h with rfl | rfl <;>
    exact ⟨by simp [waylandInit], by simp [waylandInit], by simp,
      by simp [waylandInit], by simp [waylandInit]⟩

/-- Witness for C8 at the concrete environment "WAYLAND_DISPLAY unset". -/
theorem no_display_distinguished_error_witness :
    ((none : Option String) = none ∨ (none : Option String) = some "") ∧
      ((waylandInit false none true).2 = some InitError.waylandDisplayNotSet ∧
        (waylandInit false (some "wayland-1") true).2 =
          some InitError.connectFailed ∧
        InitError.waylandDisplayNotSet ≠ InitError.connectFailed ∧
        InitStep.getRegistry ∉ (waylandInit false none true).1 ∧
        InitStep.registryRoundtrip ∉ (waylandInit false none true).1) :=
  ⟨Or.inl rfl, no_display_distinguished_error none true (Or.inl rfl)⟩

/-- **C7.** Serving a request forces the destination descriptor into
blocking mode before the write (bit 11, `O_NONBLOCK`, of the flags in
effect during the write is clear, whatever mode the descriptor arrived
in), and whenever the write reports success it has transferred the full
content length — a short write is never reported as success.  (The only
other outcomes are a hard error and still blocking inside `write(2)`.) -/
theorem serve_blocking_write_full (flags : Nat) (data : List Nat)
    (sched : List RawWrite)
    (h : (serveRequest flags data sched).2.2 = WriteStatus.complete) :
    ((serveRequest flags data sched).1).testBit 11 = false ∧
      (serveRequest flags data sched).2.1 = data.length := by
  constructor
  · rw [serveRequest, clearNonblock_testBit, testBit_O_NONBLOCK]
    simp
  · have := writeRetry_complete_total sched data 0 h
    simpa [serveRequest] using this

/-- Witness for C7: a two-byte payload delivered through two short raw
writes completes with exactly 2 bytes transferred, under cleared
`O_NONBLOCK`. -/
theorem serve_blocking_write_full_witness :
    (serveRequest 2048 [104, 105] [RawWrite.ok 1, RawWrite.ok 1]).2.2 =
        WriteStatus.complete ∧
      (((serveRequest 2048 [104, 105] [RawWrite.ok 1, RawWrite.ok 1]).1).testBit
          11 = false ∧
        (serveRequest 2048 [104, 105] [RawWrite.ok 1, RawWrite.ok 1]).2.1 =
          List.length [104, 105]) :=
  ⟨by rfl, serve_blocking_write_full 2048 [104, 105]
    [RawWrite.ok 1, RawWrite.ok 1] (by rfl)⟩

/-- **C10.** The `F_SETFL` value computed on line 138 differs from the
`F_GETFL` value only in the `O_NONBLOCK` bit: every bit other than bit 11
is preserved unchanged, and bit 11 is cleared. -/
theorem setfl_preserves_other_flags (flags i : Nat) (h : i ≠ 11) :
    (clearNonblock flags).testBit i = flags.testBit i ∧
      (clearNonblock flags).testBit 11 = false := by
  constructor
  · rw [clearNonblock_testBit, testBit_O_NONBLOCK]
    simp [h]
  · rw [clearNonblock_testBit, testBit_O_NONBLOCK]
    simp

/-- Witness for C10 at flags `2051` (bits 0, 1 and 11 set) and bit 0. -/
theorem setfl_preserves_other_flags_witness :
    (0 : Nat) ≠ 11 ∧
      ((clearNonblock 2051).testBit 0 = Nat.testBit 2051 0 ∧
        (clearNonblock 2051).testBit 11 = false) :=
  ⟨by decide, setfl_preserves_other_flags 2051 0 (by decide)⟩

end Waypaste
